import Mathlib

/-!
Shallow embedding of the photography-portal Django backend
(src/photos/models.py, serializers.py, views.py, urls.py).

The relational database is modelled as lists of records (rows); Django
querysets become list filters; `get_object` (the detail-route lookup)
becomes `find?` over the view's queryset, with `none` standing for the
HTTP 404 response.  `on_delete=CASCADE` on the foreign keys is modelled
explicitly in the delete operations.  Timestamps (`auto_now_add`,
`timezone.now`) are modelled as the constant 0, and image files as their
storage path string, since no claim depends on their values.
-/

/-- models.py `User(AbstractUser)`: username (unique), email, first/last
name, optional profile image, bio, join timestamp. -/
structure User where
  id : Nat
  username : String
  email : String
  firstName : String
  lastName : String
  profileImage : Option String
  bio : String
  dateJoined : Nat
deriving DecidableEq, Repr

/-- models.py `Album`: title, description, timestamps, and
`owner = ForeignKey(User, on_delete=CASCADE)` stored as the owner's id. -/
structure Album where
  id : Nat
  title : String
  description : String
  createdAt : Nat
  updatedAt : Nat
  owner : Nat
deriving DecidableEq, Repr

/-- models.py `Tag`: a flat record with a unique name. -/
structure Tag where
  id : Nat
  name : String
deriving DecidableEq, Repr

/-- models.py `Photo`: title, description, image, upload timestamp,
`album` and `owner` foreign keys (CASCADE), and the many-to-many `tags`
relation stored as the list of associated tag ids. -/
structure Photo where
  id : Nat
  title : String
  description : String
  image : String
  uploadedAt : Nat
  album : Nat
  owner : Nat
  tags : List Nat
deriving DecidableEq, Repr

/-- The relational store: one row list per model. -/
structure DB where
  users : List User
  albums : List Album
  photos : List Photo
  tags : List Tag
deriving DecidableEq, Repr

/-- Primary-key integrity: each table's ids are pairwise distinct. -/
def WF (db : DB) : Prop :=
  (db.users.map (fun u => u.id)).Nodup ∧
  (db.albums.map (fun a => a.id)).Nodup ∧
  (db.photos.map (fun p => p.id)).Nodup ∧
  (db.tags.map (fun t => t.id)).Nodup

instance (db : DB) : Decidable (WF db) := by
  unfold WF; infer_instance

/-- Fresh primary key for a new row (any value distinct from existing ids
works; the database assigns the next serial). -/
def nextId (ids : List Nat) : Nat :=
  ids.foldr max 0 + 1

/-! ## Album views (views.py `AlbumViewSet`) -/

/-- views.py lines 52-53: `Album.objects.filter(owner=self.request.user)` —
the queryset every album list/detail route draws from. -/
def albumGetQueryset (db : DB) (caller : Nat) : List Album :=
  db.albums.filter (fun a => a.owner == caller)

/-- DRF `get_object` on the album detail route: look the pk up in the
owner-scoped queryset; `none` is the 404 response. -/
def albumRetrieve (db : DB) (caller : Nat) (pk : Nat) : Option Album :=
  (albumGetQueryset db caller).find? (fun a => a.id == pk)

/-- An album create request body.  The body may carry an `owner` value,
but serializers.py marks `owner` read-only, so it never reaches
validated_data. -/
structure AlbumBody where
  title : String
  description : String
  owner : Option Nat
deriving DecidableEq, Repr

/-- The album fields that survive serializer validation: `owner` (and the
ids/timestamps) are in `read_only_fields`, so any submitted value is
dropped here. -/
structure AlbumValidated where
  title : String
  description : String
deriving DecidableEq, Repr

/-- serializers.py `AlbumSerializer` validation: write-able fields only. -/
def albumRunValidation (body : AlbumBody) : AlbumValidated :=
  { title := body.title, description := body.description }

/-- views.py lines 55-56: `perform_create` calls
`serializer.save(owner=self.request.user)`; the new row's owner is the
authenticated caller. -/
def albumPerformCreate (db : DB) (caller : Nat) (body : AlbumBody) :
    Album × DB :=
  let v := albumRunValidation body
  let a : Album :=
    { id := nextId (db.albums.map (fun x => x.id)), title := v.title,
      description := v.description, createdAt := 0, updatedAt := 0,
      owner := caller }
  (a, { db with albums := db.albums ++ [a] })

/-- A (partial) album update body; absent fields are left untouched. -/
structure AlbumUpdateData where
  title : Option String
  description : Option String
deriving DecidableEq, Repr

/-- DRF ModelSerializer update for albums: set each supplied write-able
attribute, leave read-only fields alone. -/
def albumSerializerUpdate (inst : Album) (d : AlbumUpdateData) : Album :=
  { inst with title := d.title.getD inst.title,
              description := d.description.getD inst.description }

/-- PUT/PATCH on the album detail route: 404 (`none`, store untouched)
when the pk is outside the caller's queryset, else update the row. -/
def albumUpdateOp (db : DB) (caller : Nat) (pk : Nat)
    (d : AlbumUpdateData) : Option Album × DB :=
  match albumRetrieve db caller pk with
  | none => (none, db)
  | some inst =>
    let a := albumSerializerUpdate inst d
    (some a,
     { db with albums := db.albums.map (fun x => if x.id == pk then a else x) })

/-- models.py: `Photo.album` is `on_delete=CASCADE`, so deleting an album
deletes its photos. -/
def deleteAlbumCascade (db : DB) (aid : Nat) : DB :=
  { db with albums := db.albums.filter (fun a => a.id != aid),
            photos := db.photos.filter (fun p => p.album != aid) }

/-- DELETE on the album detail route: 404 (`none`, store untouched) when
the pk is outside the caller's queryset, else cascade-delete the row. -/
def albumDestroyOp (db : DB) (caller : Nat) (pk : Nat) : Option Unit × DB :=
  match albumRetrieve db caller pk with
  | none => (none, db)
  | some inst => (some (), deleteAlbumCascade db inst.id)

/-! ## Photo views (views.py `PhotoViewSet`, serializers.py
`PhotoSerializer`) -/

/-- views.py lines 62-63: `Photo.objects.filter(owner=self.request.user)`. -/
def photoGetQueryset (db : DB) (caller : Nat) : List Photo :=
  db.photos.filter (fun p => p.owner == caller)

/-- DRF `get_object` on the photo detail route; `none` is the 404. -/
def photoRetrieve (db : DB) (caller : Nat) (pk : Nat) : Option Photo :=
  (photoGetQueryset db caller).find? (fun p => p.id == pk)

/-- A photo create request body: model fields plus the write-only
`tag_ids` list; `owner` may be supplied but is read-only. -/
structure PhotoBody where
  title : String
  description : String
  image : String
  album : Nat
  owner : Option Nat
  tagIds : Option (List Nat)
deriving DecidableEq, Repr

/-- The photo fields that survive serializer validation: `owner`, `id`
and `uploaded_at` are read-only and dropped; `tag_ids` is write-only and
kept (it is optional, `required=False`). -/
structure PhotoValidated where
  title : String
  description : String
  image : String
  album : Nat
  tagIds : Option (List Nat)
deriving DecidableEq, Repr

/-- serializers.py `PhotoSerializer` validation. -/
def photoRunValidation (body : PhotoBody) : PhotoValidated :=
  { title := body.title, description := body.description,
    image := body.image, album := body.album, tagIds := body.tagIds }

/-- serializers.py lines 33 and 40: `Tag.objects.filter(id__in=tag_ids)` —
the requested ids filtered against the existing tags (unknown ids drop
out silently). -/
def tagFilterIds (db : DB) (l : List Nat) : List Nat :=
  (db.tags.filter (fun t => l.contains t.id)).map (fun t => t.id)

/-- serializers.py lines 29-35 `PhotoSerializer.create`: pop `tag_ids`
(default `[]`), create the photo, and — only when the list is non-empty
(`if tag_ids:`) — set its tags to the filtered set.  `owner` arrives via
`serializer.save(owner=...)` from `perform_create`. -/
def photoSerializerCreate (db : DB) (v : PhotoValidated) (owner : Nat) :
    Photo × DB :=
  let tagIds := v.tagIds.getD []
  let base : Photo :=
    { id := nextId (db.photos.map (fun x => x.id)), title := v.title,
      description := v.description, image := v.image, uploadedAt := 0,
      album := v.album, owner := owner, tags := [] }
  let photo := bif tagIds.isEmpty then base
               else { base with tags := tagFilterIds db tagIds }
  (photo, { db with photos := db.photos ++ [photo] })

/-- views.py lines 65-66: photo `perform_create` forces
`owner=self.request.user`. -/
def photoPerformCreate (db : DB) (caller : Nat) (body : PhotoBody) :
    Photo × DB :=
  photoSerializerCreate db (photoRunValidation body) caller

/-- A (partial) photo update body; `tagIds = none` means the field was
omitted, `some l` that it was supplied (possibly empty). -/
structure PhotoUpdateData where
  title : Option String
  description : Option String
  image : Option String
  album : Option Nat
  tagIds : Option (List Nat)
deriving DecidableEq, Repr

/-- serializers.py lines 37-42 `PhotoSerializer.update`: pop `tag_ids`
(default `None`); when it is not `None` — including the empty list — set
the tags to the filtered set; then the base ModelSerializer update writes
the remaining supplied fields. -/
def photoSerializerUpdate (db : DB) (inst : Photo) (d : PhotoUpdateData) :
    Photo :=
  let withTags := match d.tagIds with
    | none => inst
    | some l => { inst with tags := tagFilterIds db l }
  { withTags with
      title := d.title.getD withTags.title,
      description := d.description.getD withTags.description,
      image := d.image.getD withTags.image,
      album := d.album.getD withTags.album }

/-- PUT/PATCH on the photo detail route: 404 outside the caller's
queryset, else update the row in place. -/
def photoUpdateOp (db : DB) (caller : Nat) (pk : Nat)
    (d : PhotoUpdateData) : Option Photo × DB :=
  match photoRetrieve db caller pk with
  | none => (none, db)
  | some inst =>
    let p := photoSerializerUpdate db inst d
    (some p,
     { db with photos := db.photos.map (fun x => if x.id == pk then p else x) })

/-- DELETE on the photo detail route: 404 outside the caller's queryset,
else delete the row (photos cascade nothing further). -/
def photoDestroyOp (db : DB) (caller : Nat) (pk : Nat) : Option Unit × DB :=
  match photoRetrieve db caller pk with
  | none => (none, db)
  | some inst =>
    (some (), { db with photos := db.photos.filter (fun p => p.id != inst.id) })

/-! ## Tag search (views.py lines 68-73 `search_by_tags`) -/

/-- Does tag id `tid` name-match one of the requested names?  Mirrors the
`tags__name__in=tags` lookup condition for a single photo-tag link row. -/
def tagNameIn (db : DB) (names : List String) (tid : Nat) : Bool :=
  db.tags.any (fun t => t.id == tid && names.contains t.name)

/-- The SQL join underlying `Photo.objects.filter(tags__name__in=tags)`:
one result row per (photo, matching tag link) pair, so a photo with
several matching tags appears several times before `.distinct()`. -/
def searchRows (db : DB) (names : List String) : List Photo → List Photo
  | [] => []
  | p :: ps =>
    ((p.tags.filter (fun tid => tagNameIn db names tid)).map (fun _ => p))
      ++ searchRows db names ps

/-- `.distinct()`: keep each photo row once (first occurrence by primary
key). -/
def dedupById : List Photo → List Photo
  | [] => []
  | p :: ps => p :: dedupById (ps.filter (fun q => q.id != p.id))
termination_by l => l.length
decreasing_by
  simp only [List.length_cons]
  exact Nat.lt_succ_of_le (List.length_filter_le _ _)

/-- views.py lines 68-73: `Photo.objects.filter(tags__name__in=tags)
.distinct()` — over ALL photos, with no owner filter. -/
def search_by_tags (db : DB) (names : List String) : List Photo :=
  dedupById (searchRows db names db.photos)

/-- `request.query_params.getlist(key, [])`: every value supplied for the
repeated query parameter `key`, `[]` when the parameter is absent. -/
def getlist (key : String) (params : List (String × String)) : List String :=
  (params.filter (fun kv => kv.fst == key)).map (fun kv => kv.snd)

/-- The full `search_by_tags` action: read the `tags` parameters from the
query string and run the search. -/
def searchByTagsAction (db : DB) (params : List (String × String)) :
    List Photo :=
  search_by_tags db (getlist "tags" params)

/-! ## User views (views.py `UserViewSet`, serializers.py
`UserSerializer`) -/

/-- A registration request body (serializers.py `UserSerializer`
write-able fields). -/
structure RegRequest where
  username : String
  email : String
  firstName : String
  lastName : String
  profileImage : Option String
  bio : String
deriving DecidableEq, Repr

/-- serializers.py `UserSerializer.is_valid`: the field-keyed error
mapping; empty iff validation succeeds.  The username is required
(blank fails) and unique (AbstractUser's unique constraint, surfaced by
the ModelSerializer's UniqueValidator). -/
def userRegErrors (db : DB) (req : RegRequest) : List (String × String) :=
  (if req.username = "" then
     [("username", "This field may not be blank.")] else [])
  ++ (if db.users.any (fun u => u.username == req.username) then
       [("username", "A user with that username already exists.")] else [])

/-- The user row `serializer.save()` creates from a valid registration. -/
def newUserFrom (db : DB) (req : RegRequest) : User :=
  { id := nextId (db.users.map (fun u => u.id)), username := req.username,
    email := req.email, firstName := req.firstName,
    lastName := req.lastName, profileImage := req.profileImage,
    bio := req.bio, dateJoined := 0 }

/-- views.py line 27 `RefreshToken.for_user(user)`: the external JWT
library mints a refresh token for the user; modelled as an abstract
token string derived from the user id. -/
def refreshTokenFor (u : User) : String :=
  "refresh-" ++ toString u.id

/-- views.py line 31 `refresh.access_token`: the paired access token. -/
def accessTokenFor (u : User) : String :=
  "access-" ++ toString u.id

/-- The 201 response body of a successful registration: the serialized
user plus both tokens. -/
structure RegSuccess where
  user : User
  refresh : String
  access : String
deriving DecidableEq, Repr

/-- The registration response: `created` is the 201 branch, `badRequest`
the 400 branch with `serializer.errors`. -/
inductive RegResult where
  | created (body : RegSuccess)
  | badRequest (errors : List (String × String))
deriving DecidableEq, Repr

/-- The HTTP status code of a registration response. -/
def regStatus : RegResult → Nat
  | .created _ => 201
  | .badRequest _ => 400

/-- views.py lines 23-33 `UserViewSet.create`: validate; on success save
the user and answer 201 with user + refresh + access; on failure answer
400 with the errors and save nothing. -/
def userCreateOp (db : DB) (req : RegRequest) : RegResult × DB :=
  let errs := userRegErrors db req
  if errs.isEmpty then
    let u := newUserFrom db req
    (.created { user := u, refresh := refreshTokenFor u,
                access := accessTokenFor u },
     { db with users := db.users ++ [u] })
  else
    (.badRequest errs, db)

/-- views.py line 14: `queryset = User.objects.all()` — the user list
route returns every user, with no owner scoping. -/
def userList (db : DB) (_caller : Nat) : List User :=
  db.users

/-- `get_object` on the user detail route draws from the unscoped
queryset: any user's row is reachable by any authenticated caller. -/
def userRetrieveOp (db : DB) (_caller : Nat) (pk : Nat) : Option User :=
  db.users.find? (fun u => u.id == pk)

/-- A (partial) user update body (write-able `UserSerializer` fields). -/
structure UserUpdateData where
  username : Option String
  email : Option String
  firstName : Option String
  lastName : Option String
  profileImage : Option String
  bio : Option String
deriving DecidableEq, Repr

/-- ModelSerializer update for users: write each supplied field; `id` and
`date_joined` are read-only. -/
def userSerializerApply (u : User) (d : UserUpdateData) : User :=
  { u with username := d.username.getD u.username,
           email := d.email.getD u.email,
           firstName := d.firstName.getD u.firstName,
           lastName := d.lastName.getD u.lastName,
           profileImage := match d.profileImage with
             | some s => some s
             | none => u.profileImage,
           bio := d.bio.getD u.bio }

/-- The outcome of an update on the user detail route. -/
inductive UserUpdateResult where
  | notFound
  | invalid (errors : List (String × String))
  | ok (u : User)
deriving DecidableEq, Repr

/-- PUT/PATCH on the user detail route (inherited ModelViewSet.update):
look the pk up in the unscoped queryset (404 when absent), re-run the
unique-username validation, then write the row.  The caller is never
consulted. -/
def userUpdateOp (db : DB) (_caller : Nat) (pk : Nat) (d : UserUpdateData) :
    UserUpdateResult × DB :=
  match db.users.find? (fun u => u.id == pk) with
  | none => (.notFound, db)
  | some u =>
    let errs := match d.username with
      | none => []
      | some n =>
        if db.users.any (fun v => v.username == n && v.id != u.id) then
          [("username", "A user with that username already exists.")]
        else []
    if errs.isEmpty then
      let u2 := userSerializerApply u d
      (.ok u2,
       { db with users := db.users.map (fun v => if v.id == pk then u2 else v) })
    else
      (.invalid errs, db)

/-- models.py: `Album.owner` and `Photo.owner` are `on_delete=CASCADE`,
so deleting a user deletes that user's albums, the photos in those
albums, and the user's photos. -/
def deleteUserCascade (db : DB) (uid : Nat) : DB :=
  let deadAlbumIds := (db.albums.filter (fun a => a.owner == uid)).map
    (fun a => a.id)
  { db with
      users := db.users.filter (fun u => u.id != uid),
      albums := db.albums.filter (fun a => a.owner != uid),
      photos := db.photos.filter
        (fun p => p.owner != uid && !(deadAlbumIds.contains p.album)) }

/-- DELETE on the user detail route: unscoped lookup, then cascade
delete. -/
def userDestroyOp (db : DB) (_caller : Nat) (pk : Nat) : Option Unit × DB :=
  match db.users.find? (fun u => u.id == pk) with
  | none => (none, db)
  | some u => (some (), deleteUserCascade db u.id)

/-! ## Concrete fixtures used by witnesses -/

/-- A user with id 1. -/
def uAlice : User :=
  { id := 1, username := "alice", email := "a@x", firstName := "",
    lastName := "", profileImage := none, bio := "", dateJoined := 0 }

/-- A user with id 2. -/
def uBob : User :=
  { id := 2, username := "bob", email := "b@x", firstName := "",
    lastName := "", profileImage := none, bio := "", dateJoined := 0 }

/-- An album owned by user 1. -/
def alb1 : Album :=
  { id := 1, title := "trip", description := "", createdAt := 0,
    updatedAt := 0, owner := 1 }

/-- An album owned by user 2. -/
def alb2 : Album :=
  { id := 2, title := "work", description := "", createdAt := 0,
    updatedAt := 0, owner := 2 }

/-- A tag named vacation, id 1. -/
def tagVacation : Tag := { id := 1, name := "vacation" }

/-- A tag named beach, id 2. -/
def tagBeach : Tag := { id := 2, name := "beach" }

/-- A photo of user 1 in album 1 carrying both tags. -/
def ph1 : Photo :=
  { id := 1, title := "p1", description := "", image := "i1",
    uploadedAt := 0, album := 1, owner := 1, tags := [1, 2] }

/-- A photo of user 2 in album 2 carrying the vacation tag. -/
def ph2 : Photo :=
  { id := 2, title := "p2", description := "", image := "i2",
    uploadedAt := 0, album := 2, owner := 2, tags := [1] }

/-- A small two-user store exercising every relation. -/
def exampleDB : DB :=
  { users := [uAlice, uBob], albums := [alb1, alb2],
    photos := [ph1, ph2], tags := [tagVacation, tagBeach] }

/-! ## Claims -/

/-- C1: album and photo list/retrieve are owner-scoped — every record the
queryset (hence any list response) or the detail lookup yields is owned
by the authenticated caller, whatever pk is supplied. -/
theorem owner_scoped_read (db : DB) (caller : Nat) :
    (∀ a, a ∈ albumGetQueryset db caller → a.owner = caller) ∧
    (∀ p, p ∈ photoGetQueryset db caller → p.owner = caller) ∧
    (∀ pk a, albumRetrieve db caller pk = some a → a.owner = caller) ∧
    (∀ pk p, photoRetrieve db caller pk = some p → p.owner = caller) := by
  have halb : ∀ a, a ∈ albumGetQueryset db caller → a.owner = caller := by
    intro a ha
    have h := (List.mem_filter.mp ha).2
    simpa using h
  have hph : ∀ p, p ∈ photoGetQueryset db caller → p.owner = caller := by
    intro p hp
    have h := (List.mem_filter.mp hp).2
    simpa using h
  refine ⟨halb, hph, ?_, ?_⟩
  · intro pk a h
    exact halb a (List.mem_of_find?_eq_some h)
  · intro pk p h
    exact hph p (List.mem_of_find?_eq_some h)

/-- Witness for C1 at a concrete store: album 1 is in user 1's queryset
and the theorem reports its owner as user 1. -/
theorem owner_scoped_read_witness :
    alb1 ∈ albumGetQueryset exampleDB 1 ∧ alb1.owner = 1 :=
  ⟨by decide, (owner_scoped_read exampleDB 1).1 alb1 (by decide)⟩

/-- C2: album and photo creation force the stored owner to the
authenticated caller; any owner value in the request body (dropped by the
read-only serializer field) never reaches the row. -/
theorem create_forces_owner (db : DB) (caller : Nat) (abody : AlbumBody)
    (pbody : PhotoBody) :
    (albumPerformCreate db caller abody).1.owner = caller ∧
    (photoPerformCreate db caller pbody).1.owner = caller ∧
    (∀ o, albumPerformCreate db caller { abody with owner := o } =
       albumPerformCreate db caller abody) ∧
    (∀ o, photoPerformCreate db caller { pbody with owner := o } =
       photoPerformCreate db caller pbody) := by
  refine ⟨rfl, ?_, fun o => rfl, fun o => rfl⟩
  simp only [photoPerformCreate, photoSerializerCreate]
  cases ((photoRunValidation pbody).tagIds.getD []).isEmpty <;> rfl

/-- C6: deleting a user removes that user's row, every album the user
owned, every photo the user owned, and every photo whose album the user
owned; deleting an album removes the album and every photo in it. -/
theorem delete_cascades (db : DB) (uid aid : Nat) :
    (∀ u, u ∈ (deleteUserCascade db uid).users → u.id ≠ uid) ∧
    (∀ a, a ∈ (deleteUserCascade db uid).albums → a.owner ≠ uid) ∧
    (∀ p, p ∈ (deleteUserCascade db uid).photos → p.owner ≠ uid) ∧
    (∀ p, p ∈ (deleteUserCascade db uid).photos →
       ∀ a, a ∈ db.albums → a.owner = uid → p.album ≠ a.id) ∧
    (∀ a, a ∈ (deleteAlbumCascade db aid).albums → a.id ≠ aid) ∧
    (∀ p, p ∈ (deleteAlbumCascade db aid).photos → p.album ≠ aid) := by
  refine ⟨?_, ?_, ?_, ?_, ?_, ?_⟩
  · intro u hu
    have h := (List.mem_filter.mp hu).2
    simpa using h
  · intro a ha
    have h := (List.mem_filter.mp ha).2
    simpa using h
  · intro p hp
    have h := (List.mem_filter.mp hp).2
    simp only [deleteUserCascade] at h
    simp only [Bool.and_eq_true, bne_iff_ne] at h
    exact h.1
  · intro p hp a ha howner heq
    have h := (List.mem_filter.mp hp).2
    simp only [deleteUserCascade, Bool.and_eq_true, Bool.not_eq_true'] at h
    have hcontains := h.2
    have hmem : a.id ∈ (db.albums.filter (fun a => a.owner == uid)).map
        (fun a => a.id) := by
      exact List.mem_map_of_mem _ (List.mem_filter.mpr ⟨ha, by simpa using howner⟩)
    rw [heq] at hcontains
    have htrue := List.elem_eq_true_of_mem hmem
    rw [List.contains, htrue] at hcontains
    exact absurd hcontains (by simp)
  · intro a ha
    have h := (List.mem_filter.mp ha).2
    simpa using h
  · intro p hp
    have h := (List.mem_filter.mp hp).2
    simpa using h

/-- Witness for C6 at the concrete store: photo 1 survives deleting user
2 and the theorem reports its owner as not 2. -/
theorem delete_cascades_witness :
    ph1 ∈ (deleteUserCascade exampleDB 2).photos ∧ ph1.owner ≠ 2 :=
  ⟨by decide, (delete_cascades exampleDB 2 2).2.2.1 ph1 (by decide)⟩

/-! ## Lemmas about the tag search -/

/-- The name-match test in propositional form. -/
theorem tagNameIn_iff (db : DB) (names : List String) (tid : Nat) :
    tagNameIn db names tid = true ↔
      ∃ t, t ∈ db.tags ∧ t.id = tid ∧ t.name ∈ names := by
  constructor
  · intro h
    obtain ⟨t, htmem, hp⟩ := List.any_eq_true.mp h
    rw [Bool.and_eq_true] at hp
    refine ⟨t, htmem, by simpa using hp.1, ?_⟩
    have h2 := hp.2
    rw [List.contains, List.elem_eq_mem] at h2
    exact of_decide_eq_true h2
  · rintro ⟨t, htmem, hid, hname⟩
    apply List.any_eq_true.mpr
    refine ⟨t, htmem, ?_⟩
    rw [Bool.and_eq_true]
    exact ⟨by simpa using hid, List.elem_eq_true_of_mem hname⟩

/-- With no requested names, no tag link matches. -/
theorem tagNameIn_nil (db : DB) (tid : Nat) : tagNameIn db [] tid = false := by
  rw [← Bool.not_eq_true]
  intro h
  obtain ⟨t, _, _, hmem⟩ := (tagNameIn_iff db [] tid).mp h
  exact absurd hmem (List.not_mem_nil _)

/-- Membership in the raw join rows: the photo is in the scanned list and
has at least one matching tag link. -/
theorem mem_searchRows (db : DB) (names : List String) :
    ∀ (l : List Photo) (q : Photo),
      q ∈ searchRows db names l ↔
        q ∈ l ∧ ∃ tid, tid ∈ q.tags ∧ tagNameIn db names tid = true := by
  intro l
  induction l with
  | nil => intro q; simp [searchRows]
  | cons p ps ih =>
    intro q
    simp only [searchRows, List.mem_append, List.mem_map, List.mem_filter,
               List.mem_cons, ih]
    constructor
    · rintro (⟨tid, ⟨htid, hmatch⟩, rfl⟩ | ⟨hq, tid, htid, hmatch⟩)
      · exact ⟨Or.inl rfl, tid, htid, hmatch⟩
      · exact ⟨Or.inr hq, tid, htid, hmatch⟩
    · rintro ⟨rfl | hq, tid, htid, hmatch⟩
      · exact Or.inl ⟨tid, ⟨htid, hmatch⟩, rfl⟩
      · exact Or.inr ⟨hq, tid, htid, hmatch⟩

/-- Deduplication only keeps rows of the input. -/
theorem dedupById_subset : ∀ (l : List Photo) (q : Photo),
    q ∈ dedupById l → q ∈ l := by
  intro l
  induction l using dedupById.induct with
  | case1 => intro q hq; simp [dedupById] at hq
  | case2 p ps ih =>
    intro q hq
    rw [dedupById] at hq
    rcases List.mem_cons.mp hq with h | h
    · exact h ▸ List.mem_cons_self _ _
    · exact List.mem_cons_of_mem _ (List.mem_of_mem_filter (ih q h))

/-- When equal ids mean equal rows (true for join rows drawn from a table
with distinct primary keys), deduplication keeps exactly the input's
members. -/
theorem mem_dedupById : ∀ (l : List Photo),
    (∀ x, x ∈ l → ∀ y, y ∈ l → x.id = y.id → x = y) →
    ∀ q : Photo, q ∈ dedupById l ↔ q ∈ l := by
  intro l
  induction l using dedupById.induct with
  | case1 => intro _ q; simp [dedupById]
  | case2 p ps ih =>
    intro hinj q
    have hinj' : ∀ x, x ∈ ps.filter (fun q => q.id != p.id) →
        ∀ y, y ∈ ps.filter (fun q => q.id != p.id) → x.id = y.id → x = y := by
      intro x hx y hy
      exact hinj x (List.mem_cons_of_mem _ (List.mem_of_mem_filter hx))
        y (List.mem_cons_of_mem _ (List.mem_of_mem_filter hy))
    rw [dedupById, List.mem_cons, List.mem_cons, ih hinj']
    constructor
    · rintro (rfl | h)
      · exact Or.inl rfl
      · exact Or.inr (List.mem_of_mem_filter h)
    · rintro (rfl | h)
      · exact Or.inl rfl
      · by_cases hid : q.id = p.id
        · exact Or.inl (hinj q (List.mem_cons_of_mem _ h) p
            (List.mem_cons_self _ _) hid)
        · exact Or.inr (List.mem_filter.mpr ⟨h, by simpa using hid⟩)

/-- Deduplicated rows have pairwise distinct ids. -/
theorem dedupById_nodup : ∀ l : List Photo,
    ((dedupById l).map (fun p => p.id)).Nodup := by
  intro l
  induction l using dedupById.induct with
  | case1 => simp [dedupById]
  | case2 p ps ih =>
    rw [dedupById, List.map_cons, List.nodup_cons]
    refine ⟨?_, ih⟩
    intro hmem
    obtain ⟨q, hq, hid⟩ := List.mem_map.mp hmem
    have := (List.mem_filter.mp (dedupById_subset _ q hq)).2
    simp only [bne_iff_ne] at this
    exact this hid

/-- C3: `search_by_tags` returns exactly the distinct set of photos
linked to at least one tag whose name is among the requested names — each
photo at most once even with several matching tags — drawn from ALL
photos in storage, with no owner restriction. -/
theorem search_by_tags_spec (db : DB) (names : List String) (hwf : WF db) :
    ((search_by_tags db names).map (fun p => p.id)).Nodup ∧
    (∀ q, q ∈ search_by_tags db names ↔
       q ∈ db.photos ∧ ∃ tid, tid ∈ q.tags ∧
         ∃ t, t ∈ db.tags ∧ t.id = tid ∧ t.name ∈ names) := by
  refine ⟨dedupById_nodup _, ?_⟩
  intro q
  have hinj : ∀ x, x ∈ searchRows db names db.photos →
      ∀ y, y ∈ searchRows db names db.photos → x.id = y.id → x = y := by
    intro x hx y hy hxy
    have hx' := ((mem_searchRows db names db.photos x).mp hx).1
    have hy' := ((mem_searchRows db names db.photos y).mp hy).1
    exact List.inj_on_of_nodup_map hwf.2.2.1 hx' hy' hxy
  rw [search_by_tags, mem_dedupById _ hinj, mem_searchRows]
  simp only [tagNameIn_iff]

/-- Witness for C3: the concrete store has distinct primary keys, and the
theorem places photo 2 — owned by user 2, linked to the tag named
vacation — in the search result. -/
theorem search_by_tags_spec_witness :
    WF exampleDB ∧ ph2 ∈ search_by_tags exampleDB ["vacation"] :=
  ⟨by decide,
   ((search_by_tags_spec exampleDB ["vacation"] (by decide)).2 ph2).mpr
     (by decide)⟩

/-- C10: with no `tags` query parameter at all, `getlist` yields the
empty name list and the search answers the empty list, not the full photo
collection. -/
theorem search_no_tags (db : DB) (params : List (String × String)) :
    (∀ kv, kv ∈ params → kv.fst ≠ "tags") →
    searchByTagsAction db params = [] := by
  intro h
  have hget : getlist "tags" params = [] := by
    rw [getlist, List.filter_eq_nil_iff.mpr
      (fun kv hkv => by simpa using h kv hkv)]
    rfl
  rw [searchByTagsAction, hget, search_by_tags]
  have hrows : ∀ l : List Photo, searchRows db [] l = [] := by
    intro l
    induction l with
    | nil => rfl
    | cons p ps ih =>
      rw [searchRows, ih]
      simp [tagNameIn_nil]
  rw [hrows]
  simp [dedupById]

/-- Witness for C10: a query string carrying only an unrelated parameter
produces the empty result on the concrete store. -/
theorem search_no_tags_witness :
    (∀ kv, kv ∈ [("page", "2")] → Prod.fst kv ≠ "tags") ∧
    searchByTagsAction exampleDB [("page", "2")] = [] :=
  ⟨by decide, search_no_tags exampleDB [("page", "2")] (by decide)⟩

/-- Membership in the filtered tag-id set, propositionally: the id names
an existing tag and was requested. -/
theorem mem_tagFilterIds (db : DB) (l : List Nat) (tid : Nat) :
    tid ∈ tagFilterIds db l ↔
      ∃ t, t ∈ db.tags ∧ t.id = tid ∧ tid ∈ l := by
  simp only [tagFilterIds, List.mem_map, List.mem_filter]
  constructor
  · rintro ⟨t, ⟨htm, hcon⟩, rfl⟩
    refine ⟨t, htm, rfl, ?_⟩
    rw [List.contains, List.elem_eq_mem] at hcon
    exact of_decide_eq_true hcon
  · rintro ⟨t, htm, rfl, hmem⟩
    exact ⟨t, ⟨htm, List.elem_eq_true_of_mem hmem⟩, rfl⟩

/-- C4: when a create or update request carries a `tag_ids` list, the
resulting photo's tag set is exactly the requested ids that name existing
tags; unknown identifiers are silently dropped and the operation still
returns a photo. -/
theorem tag_ids_filtered (db : DB) (caller : Nat) (body : PhotoBody)
    (inst : Photo) (d : PhotoUpdateData) (l : List Nat) :
    (body.tagIds = some l →
      ∀ tid, tid ∈ (photoPerformCreate db caller body).1.tags ↔
        ∃ t, t ∈ db.tags ∧ t.id = tid ∧ tid ∈ l) ∧
    (d.tagIds = some l →
      ∀ tid, tid ∈ (photoSerializerUpdate db inst d).tags ↔
        ∃ t, t ∈ db.tags ∧ t.id = tid ∧ tid ∈ l) := by
  constructor
  · intro hb tid
    simp only [photoPerformCreate, photoSerializerCreate, photoRunValidation,
               hb, Option.getD_some]
    cases l with
    | nil => simp
    | cons x xs => simp [mem_tagFilterIds]
  · intro hd tid
    simp only [photoSerializerUpdate, hd]
    simp [mem_tagFilterIds]

/-- A concrete create body requesting tag ids 1 (existing) and 9999
(absent). -/
def pBodyW : PhotoBody :=
  { title := "w", description := "", image := "iw", album := 1,
    owner := some 2, tagIds := some [1, 9999] }

/-- Witness for C4: creating with `tag_ids = [1, 9999]` on the concrete
store (whose only tag ids are 1 and 2) tags the photo with tag 1. -/
theorem tag_ids_filtered_witness :
    pBodyW.tagIds = some [1, 9999] ∧
    1 ∈ (photoPerformCreate exampleDB 1 pBodyW).1.tags :=
  ⟨rfl,
   ((tag_ids_filtered exampleDB 1 pBodyW ph1
       { title := none, description := none, image := none, album := none,
         tagIds := none } [1, 9999]).1 rfl 1).mpr
     ⟨tagVacation, by decide, by decide, by decide⟩⟩

/-- C9: on photo update, `tag_ids = []` clears the photo's tags while
omitting `tag_ids` leaves them untouched; the remaining fields are
written from the supplied data (or kept) independently of the tag
handling, and the read-only id/owner/upload-timestamp never change. -/
theorem update_tag_frame (db : DB) (inst : Photo) (d : PhotoUpdateData) :
    (d.tagIds = some [] → (photoSerializerUpdate db inst d).tags = []) ∧
    (d.tagIds = none → (photoSerializerUpdate db inst d).tags = inst.tags) ∧
    (photoSerializerUpdate db inst d).title = d.title.getD inst.title ∧
    (photoSerializerUpdate db inst d).description
      = d.description.getD inst.description ∧
    (photoSerializerUpdate db inst d).image = d.image.getD inst.image ∧
    (photoSerializerUpdate db inst d).album = d.album.getD inst.album ∧
    (photoSerializerUpdate db inst d).id = inst.id ∧
    (photoSerializerUpdate db inst d).owner = inst.owner ∧
    (photoSerializerUpdate db inst d).uploadedAt = inst.uploadedAt := by
  refine ⟨?_, ?_, ?_, ?_, ?_, ?_, ?_, ?_, ?_⟩
  · intro h
    simp [photoSerializerUpdate, h, tagFilterIds]
  · intro h
    simp [photoSerializerUpdate, h]
  all_goals cases hd : d.tagIds <;> simp [photoSerializerUpdate, hd]

/-- A concrete update body supplying an empty `tag_ids` and a new title. -/
def pUpdEmptyTags : PhotoUpdateData :=
  { title := some "renamed", description := none, image := none,
    album := none, tagIds := some [] }

/-- Witness for C9: the empty `tag_ids` list clears photo 1's tags on the
concrete store. -/
theorem update_tag_frame_witness :
    pUpdEmptyTags.tagIds = some [] ∧
    (photoSerializerUpdate exampleDB ph1 pUpdEmptyTags).tags = [] :=
  ⟨rfl, (update_tag_frame exampleDB ph1 pUpdEmptyTags).1 rfl⟩

/-- C5: registration with passing validation (username present and
unique) creates the user and answers 201 with the serialized user plus
both the refresh and the access token; failing validation answers 400
with a field-keyed error mapping and stores nothing — in particular a
second registration of a taken username keys the error on `username`. -/
theorem registration_spec (db : DB) (req : RegRequest) :
    (userRegErrors db req = [] →
      userCreateOp db req =
        (RegResult.created
           { user := newUserFrom db req,
             refresh := refreshTokenFor (newUserFrom db req),
             access := accessTokenFor (newUserFrom db req) },
         { db with users := db.users ++ [newUserFrom db req] }) ∧
      regStatus (userCreateOp db req).1 = 201) ∧
    (∀ u, u ∈ db.users → u.username = req.username →
      regStatus (userCreateOp db req).1 = 400 ∧
      (userCreateOp db req).2 = db ∧
      ∃ errs, (userCreateOp db req).1 = RegResult.badRequest errs ∧
        ("username", "A user with that username already exists.") ∈ errs) := by
  refine ⟨?_, ?_⟩
  · intro h
    constructor
    · simp [userCreateOp, h]
    · simp [userCreateOp, h, regStatus]
  · intro u hu hname
    have hany : db.users.any (fun v => v.username == req.username) = true :=
      List.any_eq_true.mpr ⟨u, hu, by simpa using hname⟩
    have hmem : ("username", "A user with that username already exists.")
        ∈ userRegErrors db req := by
      simp [userRegErrors, hany]
    have hne : (userRegErrors db req).isEmpty = false := by
      cases he : (userRegErrors db req).isEmpty
      · rfl
      · rw [List.isEmpty_iff.mp he] at hmem
        exact absurd hmem (List.not_mem_nil _)
    refine ⟨?_, ?_, ?_⟩
    · simp [userCreateOp, hne, regStatus]
    · simp [userCreateOp, hne]
    · exact ⟨userRegErrors db req, by simp [userCreateOp, hne], hmem⟩

/-- A registration request for a fresh username. -/
def reqCarol : RegRequest :=
  { username := "carol", email := "c@x", firstName := "", lastName := "",
    profileImage := none, bio := "" }

/-- A registration request that reuses user 1's username. -/
def reqAliceDup : RegRequest :=
  { username := "alice", email := "a2@x", firstName := "", lastName := "",
    profileImage := none, bio := "" }

/-- Witness for C5: on the concrete store, registering carol validates
and answers 201; re-registering alice answers 400. -/
theorem registration_spec_witness :
    userRegErrors exampleDB reqCarol = [] ∧
    regStatus (userCreateOp exampleDB reqCarol).1 = 201 ∧
    regStatus (userCreateOp exampleDB reqAliceDup).1 = 400 :=
  ⟨by decide, ((registration_spec exampleDB reqCarol).1 (by decide)).2,
   ((registration_spec exampleDB reqAliceDup).2 uAlice (by decide)
      (by decide)).1⟩

/-- C7: a retrieve, update, or delete aimed at an album or photo owned by
a different user answers 404 (`none`) — exactly as if the record did not
exist — and leaves the store untouched. -/
theorem cross_user_not_found (db : DB) (caller pk : Nat)
    (ad : AlbumUpdateData) (pd : PhotoUpdateData) (hwf : WF db) :
    (∀ a, a ∈ db.albums → a.id = pk → a.owner ≠ caller →
      albumRetrieve db caller pk = none ∧
      albumUpdateOp db caller pk ad = (none, db) ∧
      albumDestroyOp db caller pk = (none, db)) ∧
    (∀ p, p ∈ db.photos → p.id = pk → p.owner ≠ caller →
      photoRetrieve db caller pk = none ∧
      photoUpdateOp db caller pk pd = (none, db) ∧
      photoDestroyOp db caller pk = (none, db)) := by
  constructor
  · intro a ha hid hown
    have hret : albumRetrieve db caller pk = none := by
      rw [albumRetrieve, List.find?_eq_none]
      intro x hx
      have hx1 := List.mem_of_mem_filter hx
      have hx2 := (List.mem_filter.mp hx).2
      simp only [beq_iff_eq] at hx2 ⊢
      intro hxid
      have hxa : x = a :=
        List.inj_on_of_nodup_map hwf.2.1 hx1 ha (by rw [hxid, hid])
      rw [hxa] at hx2
      exact hown hx2
    exact ⟨hret, by simp [albumUpdateOp, hret], by simp [albumDestroyOp, hret]⟩
  · intro p hp hid hown
    have hret : photoRetrieve db caller pk = none := by
      rw [photoRetrieve, List.find?_eq_none]
      intro x hx
      have hx1 := List.mem_of_mem_filter hx
      have hx2 := (List.mem_filter.mp hx).2
      simp only [beq_iff_eq] at hx2 ⊢
      intro hxid
      have hxp : x = p :=
        List.inj_on_of_nodup_map hwf.2.2.1 hx1 hp (by rw [hxid, hid])
      rw [hxp] at hx2
      exact hown hx2
    exact ⟨hret, by simp [photoUpdateOp, hret], by simp [photoDestroyOp, hret]⟩

/-- Witness for C7: user 1 asking for album 2 (owned by user 2) on the
concrete store gets the 404 answer. -/
theorem cross_user_not_found_witness :
    WF exampleDB ∧ alb2.owner ≠ 1 ∧ albumRetrieve exampleDB 1 2 = none :=
  ⟨by decide, by decide,
   ((cross_user_not_found exampleDB 1 2
       { title := none, description := none }
       { title := none, description := none, image := none, album := none,
         tagIds := none } (by decide)).1 alb2 (by decide) rfl
     (by decide)).1⟩

/-- C8: the user collection is not owner-scoped — list returns every
user, and retrieve/update/destroy never consult the caller; on any
existing user id they succeed (no 404), so any authenticated caller can
read, modify, or delete any other user's account. -/
theorem users_unscoped (db : DB) (c1 c2 pk : Nat) (d : UserUpdateData) :
    userList db c1 = db.users ∧
    userRetrieveOp db c1 pk = userRetrieveOp db c2 pk ∧
    userUpdateOp db c1 pk d = userUpdateOp db c2 pk d ∧
    userDestroyOp db c1 pk = userDestroyOp db c2 pk ∧
    (∀ u, u ∈ db.users → u.id = pk →
      userRetrieveOp db c1 pk ≠ none ∧
      (userUpdateOp db c1 pk d).1 ≠ UserUpdateResult.notFound ∧
      (userDestroyOp db c1 pk).1 = some ()) := by
  refine ⟨rfl, rfl, rfl, rfl, ?_⟩
  intro u hu hid
  have hsome : (db.users.find? (fun v => v.id == pk)).isSome :=
    List.find?_isSome.mpr ⟨u, hu, by simpa using hid⟩
  obtain ⟨v, hv⟩ := Option.isSome_iff_exists.mp hsome
  refine ⟨?_, ?_, ?_⟩
  · rw [userRetrieveOp, hv]
    exact Option.some_ne_none v
  · simp only [userUpdateOp, hv]
    split <;> simp
  · simp [userDestroyOp, hv]

/-- Witness for C8: on the concrete store, caller 1 successfully deletes
user 2's account. -/
theorem users_unscoped_witness :
    uBob ∈ exampleDB.users ∧ (userDestroyOp exampleDB 1 2).1 = some () :=
  ⟨by decide,
   ((users_unscoped exampleDB 1 3 2
       { username := none, email := none, firstName := none,
         lastName := none, profileImage := none,
         bio := none }).2.2.2.2 uBob (by decide) rfl).2.2⟩
